import Mathlib

/-!
Verification of the database-comparison engine in this repository
(`main.py` and its `test3.py` variant).

The engine compares an "old" and a "new" relational database table by
table: it reads each table's ordered column catalog, probes row count and
an aggregate checksum, and — when the probes disagree — samples rows unique
to each side.

Shallow embedding notes:
* A connection is embedded as the interface of the four SQL queries the
  code actually issues (`DB` below): the catalog query of `q_columns`, the
  `COUNT_BIG` query of `q_rowcount`, the `SUM(BINARY_CHECKSUM(*))` query of
  `q_checksum`, and the projected/filtered/ordered/limited select of
  `fetch_table_sample`.  Each query may fail (`Except`), which models a
  raised database exception.
* `Database` is a concrete table store (catalog, rows, and the engine's
  per-row `BINARY_CHECKSUM` function); `Database.toDB` interprets the
  query interface over it, never failing.  The `test3.py` variant is
  embedded directly over `Database` because its diff step depends on the
  semantics of the generated `EXCEPT` SQL, not only on the interface.
* Python `str(x)` is `pyStr`; cell values are `Val` (the integer/text
  values the claims exercise).  A Python `set` built from a list and then
  listed back is embedded as first-occurrence deduplication
  (`dedupFirst`), which is deterministic within one process, as the real
  set order is for a fixed insertion sequence.
* Row dictionaries (`dict(zip(cols, tup))`) are association lists in
  column order.
-/

/-- A database cell value: the integer and text values exercised by the
claims.  Python's implicit `str` coercion in the diff step is `pyStr`. -/
inductive Val where
  | intV : Int → Val
  | strV : String → Val
deriving DecidableEq, Repr

/-- Python `str(x)` on a cell value. -/
def pyStr : Val → String
  | .intV n => toString n
  | .strV s => s

/-- Python `str.lower()`: lowercase every character (character-wise, as
`String.toLower` does; spelled out over the character list so that it
evaluates inside the kernel). -/
def pyLower (s : String) : String := String.mk (s.data.map Char.toLower)

/-- A fetched row, aligned with the column list of the query that produced it. -/
def Row := List Val
deriving DecidableEq, Repr

/-- First-occurrence deduplication, accumulator form: the embedding of
building a Python `set` from a list and listing it back within one process. -/
def dedupAux {α : Type} [DecidableEq α] (seen : List α) : List α → List α
  | [] => []
  | x :: xs => if x ∈ seen then dedupAux seen xs else x :: dedupAux (x :: seen) xs

/-- `dedupFirst l` keeps the first occurrence of each element of `l`. -/
def dedupFirst {α : Type} [DecidableEq α] (l : List α) : List α := dedupAux [] l

/-- Position of column `c` in an ordered name list (first match). -/
def colIdx : List String → String → Nat
  | [], _ => 0
  | n :: ns, c => if n = c then 0 else colIdx ns c + 1

/-- Reindex a row whose cells are aligned with `names` onto the column
selection `want` (the semantics of `df[cols]` / a SQL projection). -/
def projectRow (names : List String) (want : List String) (r : Row) : Row :=
  want.map (fun c => r.getD (colIdx names c) (Val.strV ""))

/-- The select statement `fetch_table_sample` builds:
`SELECT TOP (top) cols FROM table WITH (NOLOCK) [WHERE ...] [ORDER BY ...]`.
`whereClause`/`orderBy` hold the raw operator-supplied fragment when the
code decides to splice it in, `none` otherwise. -/
structure SelectQuery where
  table : String
  cols : List String
  whereClause : Option String
  orderBy : Option String
  top : Nat
deriving DecidableEq, Repr

/-- A live connection, seen through the four SQL queries the engine issues.
Every query may raise a database error, modelled as `Except.error` with the
exception's description. -/
structure DB where
  q_columns : String → Except String (List (String × Nat))
  q_rowcount : String → Except String Int
  q_checksum : String → Except String Int
  q_select : SelectQuery → Except String (List Row)

/-- A concrete single-database state: per-table ordered catalog, per-table
row list (each row aligned with the catalog order), and the engine's
per-row `BINARY_CHECKSUM(*)` function. -/
structure Database where
  catalog : String → List (String × Nat)
  rows : String → List Row
  rowHash : Row → Int

/-- Interpret the query interface over a concrete `Database`: the catalog
query returns the catalog, `COUNT_BIG` the row count,
`ISNULL(SUM(BINARY_CHECKSUM(*)), 0)` the sum of the per-row hashes (0 when
empty), and the select projects onto the requested columns and truncates
to `TOP (top)` in the table's default order.  The engine only issues
selects with no filter and no ordering.  No query fails. -/
def Database.toDB (d : Database) : DB where
  q_columns t := .ok (d.catalog t)
  q_rowcount t := .ok ((d.rows t).length : Int)
  q_checksum t := .ok (((d.rows t).map d.rowHash).sum)
  q_select q :=
    .ok (((d.rows q.table).map
      (projectRow ((d.catalog q.table).map Prod.fst) q.cols)).take q.top)

/-- Message of `main.py:168` / `test3.py:241`: columns present in OLD but
missing from NEW. -/
def missNewMsg (miss : List String) : String :=
  "คอลัมน์ใน OLD ที่ไม่มีใน NEW: " ++ String.intercalate ", " miss

/-- Message of `main.py:170` / `test3.py:243`: columns present in NEW but
missing from OLD. -/
def missOldMsg (miss : List String) : String :=
  "คอลัมน์ใน NEW ที่ไม่มีใน OLD: " ++ String.intercalate ", " miss

/-- Message of `main.py:176` / `test3.py:250`: the row counts differ. -/
def countMsg (rco rcn : Int) : String :=
  "Row count ต่างกัน (OLD=" ++ toString rco ++ ", NEW=" ++ toString rcn ++ ")"

/-- Message of `main.py:182` / `test3.py:257`: the checksums differ. -/
def checksumMsg : String := "Checksum ต่างกัน"

/-- Message of the per-table exception handler, `main.py:193` /
`test3.py:269`, carrying the exception's description. -/
def errMsg (e : String) : String := "เกิดข้อผิดพลาด: " ++ e

/-- The result dictionary one `compare_table` call produces
(`main.py:146-158`, same fields in `test3.py:222-224`). -/
structure TableComparisonResult where
  table : String
  schema_equal : Bool
  rowcount_old : Option Int
  rowcount_new : Option Int
  checksum_old : Option Int
  checksum_new : Option Int
  ok : Bool
  messages : List String
  only_in_old : List (List (String × String))
  only_in_new : List (List (String × String))
  columns_used : List String
deriving DecidableEq, Repr

namespace Main

/-- The fresh result of `main.py:146-158` before any query runs. -/
def initRes (t : String) : TableComparisonResult :=
  { table := t
    schema_equal := true
    rowcount_old := none
    rowcount_new := none
    checksum_old := none
    checksum_new := none
    ok := true
    messages := []
    only_in_old := []
    only_in_new := []
    columns_used := [] }

/-- `main.py:133-136`: column names present in both catalogs, in the old
side's ordinal order. -/
def common_columns (dbo dbn : DB) (t : String) : Except String (List String) :=
  match dbo.q_columns t with
  | .error e => .error e
  | .ok mo =>
    match dbn.q_columns t with
    | .error e => .error e
    | .ok mn =>
      .ok ((mo.map Prod.fst).filter (fun c => decide (c ∈ mn.map Prod.fst)))

/-- Blank-or-absent check of `main.py:234-235`: the raw fragment is spliced
into the SQL only when supplied and not whitespace. -/
def stripOpt (s : Option String) : Option String :=
  match s with
  | none => none
  | some w => if w.trim = "" then none else some w

/-- `main.py:222-243` `fetch_table_sample`: read the catalog; with no
columns an empty frame is returned without querying; otherwise restrict the
requested projection to existing columns, falling back to all columns when
the caller passed nothing usable, and run the select.  Returns the frame's
column list and rows. -/
def fetch_table_sample (db : DB) (t : String) (columns : Option (List String))
    (wh ob : Option String) (top : Nat) :
    Except String (List String × List Row) :=
  match db.q_columns t with
  | .error e => .error e
  | .ok cols_meta =>
    let all_cols := cols_meta.map Prod.fst
    if all_cols = [] then
      .ok ([], [])
    else
      let base := match columns with
        | none => all_cols
        | some cs => if cs = [] then all_cols else cs
      let filtered := base.filter (fun c => decide (c ∈ all_cols))
      let use_cols := if filtered = [] then all_cols else filtered
      match db.q_select ⟨t, use_cols, stripOpt wh, stripOpt ob, top⟩ with
      | .error e => .error e
      | .ok rows => .ok (use_cols, rows)

/-- `main.py:214-215` `to_dicts`: each string tuple becomes a column-name
keyed dictionary, and the list is truncated to the cap. -/
def to_dicts (cols_use : List String) (limit : Nat) (ts : List (List String)) :
    List (List (String × String)) :=
  (ts.map (fun tup => cols_use.zip tup)).take limit

/-- `main.py:196-217` `sample_row_diffs`: with no common columns return
three empty lists; otherwise fetch a capped sample from each side on the
common columns, stringify each row, set-difference the two samples both
ways, and return the capped dictionaries plus the columns used. -/
def sample_row_diffs (dbo dbn : DB) (t : String) (limit : Nat) :
    Except String
      (List (List (String × String)) × List (List (String × String)) ×
        List String) :=
  match common_columns dbo dbn t with
  | .error e => .error e
  | .ok cols =>
    if cols = [] then
      .ok ([], [], [])
    else
      match fetch_table_sample dbo t (some cols) none none limit with
      | .error e => .error e
      | .ok df_old =>
        match fetch_table_sample dbn t (some cols) none none limit with
        | .error e => .error e
        | .ok df_new =>
          let cols_use := cols.filter
            (fun c => decide (c ∈ df_old.1) && decide (c ∈ df_new.1))
          let set_old := dedupFirst
            ((df_old.2).map (fun r => (projectRow df_old.1 cols_use r).map pyStr))
          let set_new := dedupFirst
            ((df_new.2).map (fun r => (projectRow df_new.1 cols_use r).map pyStr))
          let only_old := set_old.filter (fun r => decide (r ∉ set_new))
          let only_new := set_new.filter (fun r => decide (r ∉ set_old))
          .ok (to_dicts cols_use limit only_old,
               to_dicts cols_use limit only_new, cols_use)

/-- `main.py:163-170`: record schema inequality and one message per
non-empty direction of missing columns. -/
def schema_step (res : TableComparisonResult) (cols_old cols_new : List String) :
    TableComparisonResult :=
  if cols_old ≠ cols_new then
    let miss_new := cols_old.filter (fun c => decide (c ∉ cols_new))
    let miss_old := cols_new.filter (fun c => decide (c ∉ cols_old))
    let res := { res with schema_equal := false }
    let res := if miss_new ≠ [] then
      { res with messages := res.messages ++ [missNewMsg miss_new] } else res
    if miss_old ≠ [] then
      { res with messages := res.messages ++ [missOldMsg miss_old] } else res
  else res

/-- `main.py:172-176`: store both row counts; on mismatch clear `ok` and
append the count message. -/
def count_step (res : TableComparisonResult) (rco rcn : Int) :
    TableComparisonResult :=
  let res := { res with rowcount_old := some rco, rowcount_new := some rcn }
  if rco ≠ rcn then
    { res with ok := false, messages := res.messages ++ [countMsg rco rcn] }
  else res

/-- `main.py:178-182`: store both checksums; on mismatch clear `ok` and
append the checksum message. -/
def checksum_step (res : TableComparisonResult) (cso csn : Int) :
    TableComparisonResult :=
  let res := { res with checksum_old := some cso, checksum_new := some csn }
  if cso ≠ csn then
    { res with ok := false, messages := res.messages ++ [checksumMsg] }
  else res

/-- The body of the `try` block of `main.py:160-190`, threading the
partially filled result exactly as the mutable dictionary is threaded in
the source: a raised query error surfaces as `Except.error` carrying the
fields populated so far together with the exception's description. -/
def compare_body (dbo dbn : DB) (t : String) :
    Except (TableComparisonResult × String) TableComparisonResult :=
  match dbo.q_columns t with
  | .error e => .error (initRes t, e)
  | .ok mo =>
  match dbn.q_columns t with
  | .error e => .error (initRes t, e)
  | .ok mn =>
  let res1 := schema_step (initRes t) (mo.map Prod.fst) (mn.map Prod.fst)
  match dbo.q_rowcount t with
  | .error e => .error (res1, e)
  | .ok rco =>
  match dbn.q_rowcount t with
  | .error e => .error ({ res1 with rowcount_old := some rco }, e)
  | .ok rcn =>
  let res2 := count_step res1 rco rcn
  match dbo.q_checksum t with
  | .error e => .error (res2, e)
  | .ok cso =>
  match dbn.q_checksum t with
  | .error e => .error ({ res2 with checksum_old := some cso }, e)
  | .ok csn =>
  let res3 := checksum_step res2 cso csn
  if res3.ok then .ok res3
  else
    match sample_row_diffs dbo dbn t 100 with
    | .error e => .error (res3, e)
    | .ok d => .ok { res3 with only_in_old := d.1, only_in_new := d.2.1,
                               columns_used := d.2.2 }

/-- `main.py:141-194` `compare_table`: run the body; any raised error is
caught at the table boundary (`main.py:191-194`), forcing `ok := false` and
appending one message with the exception's description to the partial
result, which is returned instead of propagating the exception. -/
def compare_table (dbo dbn : DB) (t : String) : TableComparisonResult :=
  match compare_body dbo dbn t with
  | .ok r => r
  | .error pe => { pe.1 with ok := false, messages := pe.1.messages ++ [errMsg pe.2] }

/-- Specification-side reading of the messages `schema_step` appends. -/
def schemaMsgs (cols_old cols_new : List String) : List String :=
  if cols_old ≠ cols_new then
    (if cols_old.filter (fun c => decide (c ∉ cols_new)) ≠ [] then
      [missNewMsg (cols_old.filter (fun c => decide (c ∉ cols_new)))] else [])
    ++
    (if cols_new.filter (fun c => decide (c ∉ cols_old)) ≠ [] then
      [missOldMsg (cols_new.filter (fun c => decide (c ∉ cols_old)))] else [])
  else []

/-- Specification-side reading of the message `count_step` appends. -/
def countMsgs (rco rcn : Int) : List String :=
  if rco ≠ rcn then [countMsg rco rcn] else []

/-- Specification-side reading of the message `checksum_step` appends. -/
def checkMsgs (cso csn : Int) : List String :=
  if cso ≠ csn then [checksumMsg] else []

/-- The result of the probe phase (schema, counts, checksums) when all six
probe queries succeed. -/
def probeResult (t : String) (cols_old cols_new : List String)
    (rco rcn cso csn : Int) : TableComparisonResult :=
  checksum_step (count_step (schema_step (initRes t) cols_old cols_new) rco rcn)
    cso csn

end Main

namespace Test3

/-!
The `test3.py` variant of the engine.  Its queries are embedded directly
over a concrete `Database` because its diff step (`q_sample_diff` /
`exec_except`) depends on the semantics of the generated `EXCEPT` SQL, not
only on an opaque query interface.  Over this pure query semantics no
query raises, so the handler of `test3.py:267-270` is never entered; the
handler's behaviour is verified on the `main.py` embedding, where it is
identical.  The dead set comprehensions of `test3.py:229-230` bind unused
locals and are omitted.
-/

/-- `test3.py:115-128`: the ordered catalog of a table. -/
def q_columns (d : Database) (t : String) : List (String × Nat) := d.catalog t

/-- `test3.py:130-134`: `SELECT COUNT_BIG(1)`. -/
def q_rowcount (d : Database) (t : String) : Int := ((d.rows t).length : Int)

/-- `test3.py:136-144`: `SELECT ISNULL(SUM(BINARY_CHECKSUM(*)), 0)`. -/
def q_checksum (d : Database) (t : String) : Int :=
  ((d.rows t).map d.rowHash).sum

/-- `test3.py:146-149`: common column names, in the old side's order. -/
def common_columns (dbo dbn : Database) (t : String) : List String :=
  ((q_columns dbo t).map Prod.fst).filter
    (fun c => decide (c ∈ (q_columns dbn t).map Prod.fst))

/-- T-SQL semantics of the one diff statement `q_sample_diff` generates
(`test3.py:165-175`; `sql_old_minus_new` and `sql_new_minus_old` are the
same text): `SELECT TOP (limit) cols FROM t WITH (NOLOCK) EXCEPT SELECT
cols FROM t WITH (NOLOCK)` — both operands name the same single table on
whichever one connection runs the statement.  `EXCEPT` returns the
distinct projected rows of the capped left operand that do not occur in
the full right operand. -/
def run_diff_sql (d : Database) (t : String) (cols : List String) (limit : Nat) :
    List Row :=
  let names := (d.catalog t).map Prod.fst
  let proj := (d.rows t).map (projectRow names cols)
  (dedupFirst (proj.take limit)).filter (fun r => decide (r ∉ proj))

/-- `test3.py:182-212` `exec_except`: run the (identical) statement on each
connection, set-difference the two fetched tuple lists in Python in the
requested direction, and return at most 100 column-keyed dictionaries of
raw values. -/
def exec_except (dbo dbn : Database) (t : String) (cols : List String)
    (limit : Nat) (direction : String) : List (List (String × Val)) :=
  let old_sample := run_diff_sql dbo t cols limit
  let new_sample := run_diff_sql dbn t cols limit
  let rows := if direction = "old_minus_new" then
      (dedupFirst old_sample).filter (fun r => decide (r ∉ new_sample))
    else
      (dedupFirst new_sample).filter (fun r => decide (r ∉ old_sample))
  (rows.take 100).map
    (fun tup => (List.range cols.length).map
      (fun i => (cols.getD i "", tup.getD i (Val.strV ""))))

/-- `test3.py:151-180` `q_sample_diff`: with no common columns return three
empty lists; otherwise run `exec_except` in both directions over the
generated statements. -/
def q_sample_diff (dbo dbn : Database) (t : String) (limit : Nat) :
    List (List (String × Val)) × List (List (String × Val)) × List String :=
  let cols := common_columns dbo dbn t
  if cols = [] then ([], [], [])
  else
    (exec_except dbo dbn t cols limit "old_minus_new",
     exec_except dbo dbn t cols limit "new_minus_old",
     cols)

/-- The result dictionary of `test3.py:222-224`; the sample lists hold raw
values here, not stringified ones. -/
structure T3Result where
  table : String
  ok : Bool
  messages : List String
  rowcount_old : Option Int
  rowcount_new : Option Int
  checksum_old : Option Int
  checksum_new : Option Int
  schema_equal : Bool
  only_in_old : List (List (String × Val))
  only_in_new : List (List (String × Val))
  columns_used : List String
deriving DecidableEq, Repr

/-- The fresh result of `test3.py:222-224`. -/
def initT3 (t : String) : T3Result :=
  { table := t
    ok := true
    messages := []
    rowcount_old := none
    rowcount_new := none
    checksum_old := none
    checksum_new := none
    schema_equal := true
    only_in_old := []
    only_in_new := []
    columns_used := [] }

/-- `test3.py:221-270` `compare_table`.  Unlike `main.py`, the schema check
lowercases the column names on both sides (`test3.py:233-235`) before the
ordered comparison, and the missing-column messages carry the lowercased
names. -/
def compare_table (dbo dbn : Database) (t : String) : T3Result :=
  let cols_old := q_columns dbo t
  let cols_new := q_columns dbn t
  let names_old : List String := cols_old.map (fun p => pyLower p.1)
  let names_new : List String := cols_new.map (fun p => pyLower p.1)
  let result1 :=
    if names_old ≠ names_new then
      let miss_in_new := names_old.filter (fun c => decide (c ∉ names_new))
      let miss_in_old := names_new.filter (fun c => decide (c ∉ names_old))
      let r := { initT3 t with schema_equal := false }
      let r := if miss_in_new ≠ [] then
        { r with messages := r.messages ++ [missNewMsg miss_in_new] } else r
      if miss_in_old ≠ [] then
        { r with messages := r.messages ++ [missOldMsg miss_in_old] } else r
    else initT3 t
  let rco := q_rowcount dbo t
  let rcn := q_rowcount dbn t
  let result2 := { result1 with rowcount_old := some rco, rowcount_new := some rcn }
  let result2 := if rco ≠ rcn then
    { result2 with ok := false, messages := result2.messages ++ [countMsg rco rcn] }
  else result2
  let cso := q_checksum dbo t
  let csn := q_checksum dbn t
  let result3 := { result2 with checksum_old := some cso, checksum_new := some csn }
  let result3 := if cso ≠ csn then
    { result3 with ok := false, messages := result3.messages ++ [checksumMsg] }
  else result3
  if result3.ok then result3
  else
    let d := q_sample_diff dbo dbn t 100
    { result3 with only_in_old := d.1, only_in_new := d.2.1, columns_used := d.2.2 }

end Test3

/-!
Concrete databases used by counterexamples and witnesses.
-/

/-- Catalog of the two-column table `T` of the spec's scenario:
`(id, value)` at ordinals 1 and 2. -/
def catalogT : String → List (String × Nat) :=
  fun t => if t = "T" then [("id", 1), ("value", 2)] else []

/-- Row `(1, "x")`, present on both sides of the scenario. -/
def rowOld1 : Row := [Val.intV 1, Val.strV "x"]

/-- Row `(2, "y")`, present only in the old table. -/
def rowOld2 : Row := [Val.intV 2, Val.strV "y"]

/-- Row `(2, "z")`, present only in the new table. -/
def rowNew2 : Row := [Val.intV 2, Val.strV "z"]

/-- The old side of the spec scenario: `T` holds `{(1,"x"), (2,"y")}`,
with an arbitrary engine row hash `h`. -/
def scenarioOld (h : Row → Int) : Database :=
  ⟨catalogT, fun t => if t = "T" then [rowOld1, rowOld2] else [], h⟩

/-- The new side of the spec scenario: `T` holds `{(1,"x"), (2,"z")}`. -/
def scenarioNew (h : Row → Int) : Database :=
  ⟨catalogT, fun t => if t = "T" then [rowOld1, rowNew2] else [], h⟩

/-- A demonstration row hash that separates `(2,"y")` from `(2,"z")`. -/
def demoHash : Row → Int :=
  fun r => match r with
  | [Val.intV 2, Val.strV "y"] => 1
  | _ => 0

/-- A single-table database whose only column is uppercase `A`. -/
def dbUpperA : Database := ⟨fun _ => [("A", 1)], fun _ => [], fun _ => 0⟩

/-- A single-table database whose only column is lowercase `a`. -/
def dbLowerA : Database := ⟨fun _ => [("a", 1)], fun _ => [], fun _ => 0⟩

/-- A trivial never-failing connection: one column `A`, no rows. -/
def okDB : DB :=
  { q_columns := fun _ => .ok [("A", 1)]
    q_rowcount := fun _ => .ok 0
    q_checksum := fun _ => .ok 0
    q_select := fun _ => .ok [] }

/-- A connection with a disjoint catalog (one column `B`, no rows). -/
def okDB2 : DB :=
  { q_columns := fun _ => .ok [("B", 1)]
    q_rowcount := fun _ => .ok 0
    q_checksum := fun _ => .ok 0
    q_select := fun _ => .ok [] }

/-- A connection whose catalog query raises. -/
def failDB : DB :=
  { q_columns := fun _ => .error "boom"
    q_rowcount := fun _ => .error "boom"
    q_checksum := fun _ => .error "boom"
    q_select := fun _ => .error "boom" }

/-!
Helper lemmas.  The step lemmas record which result fields each phase of
`Main.compare_table` writes and which it leaves untouched, mirroring the
in-place dictionary updates of the source.
-/

namespace Main

@[simp]
theorem schema_step_table (res : TableComparisonResult) (co cn : List String) :
    (schema_step res co cn).table = res.table := by
  simp only [schema_step]
  split
  · split <;> split <;> rfl
  · rfl

@[simp]
theorem schema_step_ok (res : TableComparisonResult) (co cn : List String) :
    (schema_step res co cn).ok = res.ok := by
  simp only [schema_step]
  split
  · split <;> split <;> rfl
  · rfl

@[simp]
theorem schema_step_rowcount_old (res : TableComparisonResult) (co cn : List String) :
    (schema_step res co cn).rowcount_old = res.rowcount_old := by
  simp only [schema_step]
  split
  · split <;> split <;> rfl
  · rfl

@[simp]
theorem schema_step_rowcount_new (res : TableComparisonResult) (co cn : List String) :
    (schema_step res co cn).rowcount_new = res.rowcount_new := by
  simp only [schema_step]
  split
  · split <;> split <;> rfl
  · rfl

@[simp]
theorem schema_step_checksum_old (res : TableComparisonResult) (co cn : List String) :
    (schema_step res co cn).checksum_old = res.checksum_old := by
  simp only [schema_step]
  split
  · split <;> split <;> rfl
  · rfl

@[simp]
theorem schema_step_checksum_new (res : TableComparisonResult) (co cn : List String) :
    (schema_step res co cn).checksum_new = res.checksum_new := by
  simp only [schema_step]
  split
  · split <;> split <;> rfl
  · rfl

@[simp]
theorem schema_step_only_in_old (res : TableComparisonResult) (co cn : List String) :
    (schema_step res co cn).only_in_old = res.only_in_old := by
  simp only [schema_step]
  split
  · split <;> split <;> rfl
  · rfl

@[simp]
theorem schema_step_only_in_new (res : TableComparisonResult) (co cn : List String) :
    (schema_step res co cn).only_in_new = res.only_in_new := by
  simp only [schema_step]
  split
  · split <;> split <;> rfl
  · rfl

@[simp]
theorem schema_step_columns_used (res : TableComparisonResult) (co cn : List String) :
    (schema_step res co cn).columns_used = res.columns_used := by
  simp only [schema_step]
  split
  · split <;> split <;> rfl
  · rfl

@[simp]
theorem schema_step_schema_equal (res : TableComparisonResult) (co cn : List String) :
    (schema_step res co cn).schema_equal = (res.schema_equal && decide (co = cn)) := by
  simp only [schema_step]
  split
  · rename_i h
    split <;> split <;> simp [h]
  · rename_i h
    rw [not_not] at h
    simp [h]

@[simp]
theorem schema_step_messages (res : TableComparisonResult) (co cn : List String) :
    (schema_step res co cn).messages = res.messages ++ schemaMsgs co cn := by
  simp only [schema_step, schemaMsgs]
  split
  · split <;> split <;> simp
  · simp

@[simp]
theorem count_step_table (res : TableComparisonResult) (rco rcn : Int) :
    (count_step res rco rcn).table = res.table := by
  simp only [count_step]
  split <;> rfl

@[simp]
theorem count_step_schema_equal (res : TableComparisonResult) (rco rcn : Int) :
    (count_step res rco rcn).schema_equal = res.schema_equal := by
  simp only [count_step]
  split <;> rfl

@[simp]
theorem count_step_rowcount_old (res : TableComparisonResult) (rco rcn : Int) :
    (count_step res rco rcn).rowcount_old = some rco := by
  simp only [count_step]
  split <;> rfl

@[simp]
theorem count_step_rowcount_new (res : TableComparisonResult) (rco rcn : Int) :
    (count_step res rco rcn).rowcount_new = some rcn := by
  simp only [count_step]
  split <;> rfl

@[simp]
theorem count_step_checksum_old (res : TableComparisonResult) (rco rcn : Int) :
    (count_step res rco rcn).checksum_old = res.checksum_old := by
  simp only [count_step]
  split <;> rfl

@[simp]
theorem count_step_checksum_new (res : TableComparisonResult) (rco rcn : Int) :
    (count_step res rco rcn).checksum_new = res.checksum_new := by
  simp only [count_step]
  split <;> rfl

@[simp]
theorem count_step_only_in_old (res : TableComparisonResult) (rco rcn : Int) :
    (count_step res rco rcn).only_in_old = res.only_in_old := by
  simp only [count_step]
  split <;> rfl

@[simp]
theorem count_step_only_in_new (res : TableComparisonResult) (rco rcn : Int) :
    (count_step res rco rcn).only_in_new = res.only_in_new := by
  simp only [count_step]
  split <;> rfl

@[simp]
theorem count_step_columns_used (res : TableComparisonResult) (rco rcn : Int) :
    (count_step res rco rcn).columns_used = res.columns_used := by
  simp only [count_step]
  split <;> rfl

@[simp]
theorem count_step_ok (res : TableComparisonResult) (rco rcn : Int) :
    (count_step res rco rcn).ok = (res.ok && decide (rco = rcn)) := by
  simp only [count_step]
  split <;> rename_i h <;> simp_all

@[simp]
theorem count_step_messages (res : TableComparisonResult) (rco rcn : Int) :
    (count_step res rco rcn).messages = res.messages ++ countMsgs rco rcn := by
  simp only [count_step, countMsgs]
  split <;> simp

@[simp]
theorem checksum_step_table (res : TableComparisonResult) (cso csn : Int) :
    (checksum_step res cso csn).table = res.table := by
  simp only [checksum_step]
  split <;> rfl

@[simp]
theorem checksum_step_schema_equal (res : TableComparisonResult) (cso csn : Int) :
    (checksum_step res cso csn).schema_equal = res.schema_equal := by
  simp only [checksum_step]
  split <;> rfl

@[simp]
theorem checksum_step_rowcount_old (res : TableComparisonResult) (cso csn : Int) :
    (checksum_step res cso csn).rowcount_old = res.rowcount_old := by
  simp only [checksum_step]
  split <;> rfl

@[simp]
theorem checksum_step_rowcount_new (res : TableComparisonResult) (cso csn : Int) :
    (checksum_step res cso csn).rowcount_new = res.rowcount_new := by
  simp only [checksum_step]
  split <;> rfl

@[simp]
theorem checksum_step_checksum_old (res : TableComparisonResult) (cso csn : Int) :
    (checksum_step res cso csn).checksum_old = some cso := by
  simp only [checksum_step]
  split <;> rfl

@[simp]
theorem checksum_step_checksum_new (res : TableComparisonResult) (cso csn : Int) :
    (checksum_step res cso csn).checksum_new = some csn := by
  simp only [checksum_step]
  split <;> rfl

@[simp]
theorem checksum_step_only_in_old (res : TableComparisonResult) (cso csn : Int) :
    (checksum_step res cso csn).only_in_old = res.only_in_old := by
  simp only [checksum_step]
  split <;> rfl

@[simp]
theorem checksum_step_only_in_new (res : TableComparisonResult) (cso csn : Int) :
    (checksum_step res cso csn).only_in_new = res.only_in_new := by
  simp only [checksum_step]
  split <;> rfl

@[simp]
theorem checksum_step_columns_used (res : TableComparisonResult) (cso csn : Int) :
    (checksum_step res cso csn).columns_used = res.columns_used := by
  simp only [checksum_step]
  split <;> rfl

@[simp]
theorem checksum_step_ok (res : TableComparisonResult) (cso csn : Int) :
    (checksum_step res cso csn).ok = (res.ok && decide (cso = csn)) := by
  simp only [checksum_step]
  split <;> rename_i h <;> simp_all

@[simp]
theorem checksum_step_messages (res : TableComparisonResult) (cso csn : Int) :
    (checksum_step res cso csn).messages = res.messages ++ checkMsgs cso csn := by
  simp only [checksum_step, checkMsgs]
  split <;> simp

theorem probeResult_ok (t : String) (co cn : List String) (rco rcn cso csn : Int) :
    (probeResult t co cn rco rcn cso csn).ok =
      (decide (rco = rcn) && decide (cso = csn)) := by
  simp [probeResult, initRes]

theorem probeResult_schema_equal (t : String) (co cn : List String)
    (rco rcn cso csn : Int) :
    (probeResult t co cn rco rcn cso csn).schema_equal = decide (co = cn) := by
  simp [probeResult, initRes]

theorem probeResult_messages (t : String) (co cn : List String)
    (rco rcn cso csn : Int) :
    (probeResult t co cn rco rcn cso csn).messages =
      schemaMsgs co cn ++ countMsgs rco rcn ++ checkMsgs cso csn := by
  simp [probeResult, initRes]

theorem probeResult_fields (t : String) (co cn : List String)
    (rco rcn cso csn : Int) :
    (probeResult t co cn rco rcn cso csn).table = t
    ∧ (probeResult t co cn rco rcn cso csn).rowcount_old = some rco
    ∧ (probeResult t co cn rco rcn cso csn).rowcount_new = some rcn
    ∧ (probeResult t co cn rco rcn cso csn).checksum_old = some cso
    ∧ (probeResult t co cn rco rcn cso csn).checksum_new = some csn
    ∧ (probeResult t co cn rco rcn cso csn).only_in_old = []
    ∧ (probeResult t co cn rco rcn cso csn).only_in_new = []
    ∧ (probeResult t co cn rco rcn cso csn).columns_used = [] := by
  simp [probeResult, initRes]

theorem compare_body_probe (dbo dbn : DB) (t : String)
    (mo mn : List (String × Nat)) (rco rcn cso csn : Int)
    (h1 : dbo.q_columns t = .ok mo) (h2 : dbn.q_columns t = .ok mn)
    (h3 : dbo.q_rowcount t = .ok rco) (h4 : dbn.q_rowcount t = .ok rcn)
    (h5 : dbo.q_checksum t = .ok cso) (h6 : dbn.q_checksum t = .ok csn) :
    compare_body dbo dbn t =
      (if (probeResult t (mo.map Prod.fst) (mn.map Prod.fst) rco rcn cso csn).ok then
        .ok (probeResult t (mo.map Prod.fst) (mn.map Prod.fst) rco rcn cso csn)
      else
        match sample_row_diffs dbo dbn t 100 with
        | .error e =>
          .error (probeResult t (mo.map Prod.fst) (mn.map Prod.fst) rco rcn cso csn, e)
        | .ok d =>
          .ok { probeResult t (mo.map Prod.fst) (mn.map Prod.fst) rco rcn cso csn with
                only_in_old := d.1, only_in_new := d.2.1, columns_used := d.2.2 }) := by
  simp only [compare_body, probeResult, h1, h2, h3, h4, h5, h6]

theorem compare_table_ok_case (dbo dbn : DB) (t : String)
    (mo mn : List (String × Nat)) (rco rcn cso csn : Int)
    (h1 : dbo.q_columns t = .ok mo) (h2 : dbn.q_columns t = .ok mn)
    (h3 : dbo.q_rowcount t = .ok rco) (h4 : dbn.q_rowcount t = .ok rcn)
    (h5 : dbo.q_checksum t = .ok cso) (h6 : dbn.q_checksum t = .ok csn)
    (hrc : rco = rcn) (hcs : cso = csn) :
    compare_table dbo dbn t =
      probeResult t (mo.map Prod.fst) (mn.map Prod.fst) rco rcn cso csn := by
  have hb := compare_body_probe dbo dbn t mo mn rco rcn cso csn h1 h2 h3 h4 h5 h6
  have hok : (probeResult t (mo.map Prod.fst) (mn.map Prod.fst) rco rcn cso csn).ok
      = true := by
    simp [probeResult_ok, hrc, hcs]
  simp [compare_table, hb, hok]

theorem compare_table_diff_case (dbo dbn : DB) (t : String)
    (mo mn : List (String × Nat)) (rco rcn cso csn : Int)
    (d : List (List (String × String)) × List (List (String × String)) × List String)
    (h1 : dbo.q_columns t = .ok mo) (h2 : dbn.q_columns t = .ok mn)
    (h3 : dbo.q_rowcount t = .ok rco) (h4 : dbn.q_rowcount t = .ok rcn)
    (h5 : dbo.q_checksum t = .ok cso) (h6 : dbn.q_checksum t = .ok csn)
    (hbad : ¬(rco = rcn ∧ cso = csn))
    (h7 : sample_row_diffs dbo dbn t 100 = .ok d) :
    compare_table dbo dbn t =
      { probeResult t (mo.map Prod.fst) (mn.map Prod.fst) rco rcn cso csn with
        only_in_old := d.1, only_in_new := d.2.1, columns_used := d.2.2 } := by
  have hb := compare_body_probe dbo dbn t mo mn rco rcn cso csn h1 h2 h3 h4 h5 h6
  have hok : (probeResult t (mo.map Prod.fst) (mn.map Prod.fst) rco rcn cso csn).ok
      = false := by
    rw [probeResult_ok]
    rcases not_and_or.mp hbad with h | h <;> simp [h]
  simp [compare_table, hb, hok, h7]

theorem compare_table_error_case (dbo dbn : DB) (t : String)
    (p : TableComparisonResult) (e : String)
    (hb : compare_body dbo dbn t = .error (p, e)) :
    compare_table dbo dbn t =
      { p with ok := false, messages := p.messages ++ [errMsg e] } := by
  simp [compare_table, hb]

theorem compare_body_error_inv (dbo dbn : DB) (t : String)
    (p : TableComparisonResult) (e : String)
    (hb : compare_body dbo dbn t = .error (p, e)) :
    p.only_in_old = [] ∧ p.only_in_new = [] ∧ p.columns_used = [] := by
  simp only [compare_body] at hb
  repeat' split at hb
  all_goals try exact Except.noConfusion hb
  all_goals simp only [Except.error.injEq, Prod.mk.injEq] at hb
  all_goals obtain ⟨rfl, rfl⟩ := hb
  all_goals simp [initRes]

theorem compare_body_ok_inv (dbo dbn : DB) (t : String)
    (r : TableComparisonResult)
    (hb : compare_body dbo dbn t = .ok r) (hok : r.ok = true) :
    r.only_in_old = [] ∧ r.only_in_new = [] ∧ r.columns_used = [] := by
  simp only [compare_body] at hb
  repeat' split at hb
  all_goals try exact Except.noConfusion hb
  all_goals simp only [Except.ok.injEq] at hb
  all_goals subst hb
  · simp [initRes]
  · simp_all [initRes]

theorem compare_body_schema_ok (dbo dbn : DB) (t : String)
    (mo mn : List (String × Nat)) (r : TableComparisonResult)
    (h1 : dbo.q_columns t = .ok mo) (h2 : dbn.q_columns t = .ok mn)
    (hb : compare_body dbo dbn t = .ok r) :
    r.schema_equal = decide (mo.map Prod.fst = mn.map Prod.fst) := by
  simp only [compare_body, h1, h2] at hb
  repeat' split at hb
  all_goals try exact Except.noConfusion hb
  all_goals simp only [Except.ok.injEq] at hb
  all_goals subst hb
  all_goals simp [initRes]

theorem compare_body_schema_err (dbo dbn : DB) (t : String)
    (mo mn : List (String × Nat)) (p : TableComparisonResult) (e : String)
    (h1 : dbo.q_columns t = .ok mo) (h2 : dbn.q_columns t = .ok mn)
    (hb : compare_body dbo dbn t = .error (p, e)) :
    p.schema_equal = decide (mo.map Prod.fst = mn.map Prod.fst) := by
  simp only [compare_body, h1, h2] at hb
  repeat' split at hb
  all_goals try exact Except.noConfusion hb
  all_goals simp only [Except.error.injEq, Prod.mk.injEq] at hb
  all_goals obtain ⟨rfl, rfl⟩ := hb
  all_goals simp [initRes]

end Main

theorem mem_of_mem_dedupAux {α : Type} [DecidableEq α] (seen l : List α) (x : α)
    (hx : x ∈ dedupAux seen l) : x ∈ l := by
  induction l generalizing seen with
  | nil => simp [dedupAux] at hx
  | cons y ys ih =>
    simp only [dedupAux] at hx
    split at hx
    · exact List.mem_cons_of_mem y (ih _ hx)
    · rcases List.mem_cons.mp hx with h | h
      · simp [h]
      · exact List.mem_cons_of_mem y (ih _ h)

theorem mem_of_mem_dedupFirst {α : Type} [DecidableEq α] (l : List α) (x : α)
    (hx : x ∈ dedupFirst l) : x ∈ l :=
  mem_of_mem_dedupAux [] l x hx

namespace Test3

/-- Core of the `test3.py` diff defect: each generated statement subtracts a
table's own rows from a capped scan of the same table on the same
connection, so it returns no rows on any database. -/
theorem run_diff_sql_nil (d : Database) (t : String) (cols : List String)
    (limit : Nat) : run_diff_sql d t cols limit = [] := by
  simp only [run_diff_sql]
  rw [List.filter_eq_nil_iff]
  intro r hr
  have hmem : r ∈ ((d.rows t).map
      (projectRow ((d.catalog t).map Prod.fst) cols)).take limit :=
    mem_of_mem_dedupFirst _ r hr
  have : r ∈ (d.rows t).map (projectRow ((d.catalog t).map Prod.fst) cols) :=
    List.take_subset limit _ hmem
  simp [this]

theorem exec_except_nil (dbo dbn : Database) (t : String) (cols : List String)
    (limit : Nat) (direction : String) :
    exec_except dbo dbn t cols limit direction = [] := by
  simp [exec_except, run_diff_sql_nil, dedupFirst, dedupAux]

/-- `q_sample_diff` always returns two empty sample lists, whatever the
two databases hold. -/
theorem q_sample_diff_eq (dbo dbn : Database) (t : String) (limit : Nat) :
    q_sample_diff dbo dbn t limit = ([], [], common_columns dbo dbn t) := by
  simp only [q_sample_diff, exec_except_nil]
  split <;> simp_all

end Test3

theorem ite_t3_schema_equal (c : Prop) [Decidable c] (a b : Test3.T3Result) :
    (if c then a else b).schema_equal =
      if c then a.schema_equal else b.schema_equal :=
  apply_ite _ c a b

namespace Test3

/-- The `test3.py` schema verdict: equality of the lowercased ordered
column-name sequences. -/
theorem schema_verdict_lowercased (dbo dbn : Database) (t : String) :
    (compare_table dbo dbn t).schema_equal =
      decide ((q_columns dbo t).map (fun p => pyLower p.1)
        = (q_columns dbn t).map (fun p => pyLower p.1)) := by
  by_cases h : (q_columns dbo t).map (fun p => pyLower p.1)
      = (q_columns dbn t).map (fun p => pyLower p.1)
  · simp [compare_table, ite_t3_schema_equal, h, initT3]
  · simp [compare_table, ite_t3_schema_equal, h, initT3]

end Test3

namespace Main

/-- The `main.py` schema verdict, robust to any later query failing:
equality of the raw ordered column-name sequences. -/
theorem schema_verdict_raw (dbo dbn : DB) (t : String)
    (mo mn : List (String × Nat))
    (h1 : dbo.q_columns t = .ok mo) (h2 : dbn.q_columns t = .ok mn) :
    (compare_table dbo dbn t).schema_equal =
      decide (mo.map Prod.fst = mn.map Prod.fst) := by
  rcases hb : compare_body dbo dbn t with pe | r
  · rcases pe with ⟨p, e⟩
    rw [compare_table_error_case dbo dbn t p e hb]
    exact compare_body_schema_err dbo dbn t mo mn p e h1 h2 hb
  · rw [show compare_table dbo dbn t = r by simp [compare_table, hb]]
    exact compare_body_schema_ok dbo dbn t mo mn r h1 h2 hb

end Main

/-!
Claim theorems.
-/

/-- C1: for every `compare_table` invocation that completes without an
exception, the result's `ok` flag is true iff the old and new row counts
are equal and the old and new checksums are equal; the catalogs (and hence
`schema_equal`) are universally quantified and do not influence `ok`; a
count mismatch and a checksum mismatch each append their own diagnostic
message. -/
theorem c1_ok_iff_counts_and_checksums : ∀ (dbo dbn : DB) (t : String)
    (mo mn : List (String × Nat)) (rco rcn cso csn : Int),
    dbo.q_columns t = .ok mo → dbn.q_columns t = .ok mn →
    dbo.q_rowcount t = .ok rco → dbn.q_rowcount t = .ok rcn →
    dbo.q_checksum t = .ok cso → dbn.q_checksum t = .ok csn →
    (¬(rco = rcn ∧ cso = csn) →
      ∃ d, Main.sample_row_diffs dbo dbn t 100 = .ok d) →
    ((Main.compare_table dbo dbn t).ok = true ↔ (rco = rcn ∧ cso = csn))
    ∧ (rco ≠ rcn → countMsg rco rcn ∈ (Main.compare_table dbo dbn t).messages)
    ∧ (cso ≠ csn → checksumMsg ∈ (Main.compare_table dbo dbn t).messages) := by
  intro dbo dbn t mo mn rco rcn cso csn h1 h2 h3 h4 h5 h6 h7
  by_cases hgood : rco = rcn ∧ cso = csn
  · obtain ⟨hrc, hcs⟩ := hgood
    rw [Main.compare_table_ok_case dbo dbn t mo mn rco rcn cso csn
      h1 h2 h3 h4 h5 h6 hrc hcs]
    refine ⟨?_, fun hne => absurd hrc hne, fun hne => absurd hcs hne⟩
    simp [Main.probeResult_ok, hrc, hcs]
  · obtain ⟨d, hd⟩ := h7 hgood
    rw [Main.compare_table_diff_case dbo dbn t mo mn rco rcn cso csn d
      h1 h2 h3 h4 h5 h6 hgood hd]
    refine ⟨?_, ?_, ?_⟩
    · simp only [Main.probeResult_ok]
      simp [hgood]
    · intro hne
      simp [Main.probeResult_messages, Main.countMsgs, hne]
    · intro hne
      simp [Main.probeResult_messages, Main.checkMsgs, hne]

/-- Witness for C1 at a concrete pair of identical connections. -/
theorem c1_witness :
    ((Main.compare_table okDB okDB "T").ok = true ↔ ((0 : Int) = 0 ∧ (0 : Int) = 0))
    ∧ ((0 : Int) ≠ 0 → countMsg 0 0 ∈ (Main.compare_table okDB okDB "T").messages)
    ∧ ((0 : Int) ≠ 0 → checksumMsg ∈ (Main.compare_table okDB okDB "T").messages) :=
  c1_ok_iff_counts_and_checksums okDB okDB "T" [("A", 1)] [("A", 1)] 0 0 0 0
    rfl rfl rfl rfl rfl rfl (fun hh => absurd ⟨rfl, rfl⟩ hh)

/-- C2 counterexample: in the `test3.py` variant the column names are
lowercased before the ordered comparison, so with old catalog `["A"]` and
new catalog `["a"]` the ordered column-name sequences differ yet
`schema_equal` remains true — the claim's biconditional fails there. -/
theorem c2_counterexample :
    (Test3.compare_table dbUpperA dbLowerA "T").schema_equal = true
    ∧ (Test3.q_columns dbUpperA "T").map Prod.fst ≠
        (Test3.q_columns dbLowerA "T").map Prod.fst :=
  ⟨rfl, by decide⟩

/-- C2 (amended): `main.py`'s `compare_table` sets `schema_equal` to false
iff the raw ordered column-name sequences differ (so a pure reordering of
an identical name set is reported as unequal); the `test3.py` variant
compares the lowercased sequences instead, so sequences differing only in
letter case are still reported as schema-equal there, while any other
ordered difference — including pure reordering — is flagged in both. -/
theorem c2_schema_equal_characterization :
    (∀ (dbo dbn : DB) (t : String) (mo mn : List (String × Nat)),
      dbo.q_columns t = .ok mo → dbn.q_columns t = .ok mn →
      ((Main.compare_table dbo dbn t).schema_equal = false ↔
        mo.map Prod.fst ≠ mn.map Prod.fst))
    ∧ (∀ (dbo dbn : Database) (t : String),
      ((Test3.compare_table dbo dbn t).schema_equal = false ↔
        (Test3.q_columns dbo t).map (fun p => pyLower p.1)
          ≠ (Test3.q_columns dbn t).map (fun p => pyLower p.1))) := by
  constructor
  · intro dbo dbn t mo mn h1 h2
    rw [Main.schema_verdict_raw dbo dbn t mo mn h1 h2]
    simp
  · intro dbo dbn t
    rw [Test3.schema_verdict_lowercased dbo dbn t]
    simp

/-- Witness for C2 at a concrete pair of connections whose catalogs are a
reordering-free single-column mismatch. -/
theorem c2_witness :
    (Main.compare_table okDB okDB2 "T").schema_equal = false ↔
      (["A"] : List String) ≠ ["B"] :=
  c2_schema_equal_characterization.1 okDB okDB2 "T" [("A", 1)] [("B", 1)] rfl rfl

/-- C3: every exception raised inside one table's comparison is caught at
the table boundary: the returned result is the partial result with
`ok := false` and exactly one appended message carrying the exception's
description; the row-diff fields of the partial result are still at their
initial empty values; the comparison returns normally (the embedding of
`compare_table` is a total function) instead of propagating. -/
theorem c3_exception_caught_per_table : ∀ (dbo dbn : DB) (t : String)
    (p : TableComparisonResult) (e : String),
    Main.compare_body dbo dbn t = .error (p, e) →
    Main.compare_table dbo dbn t =
      { p with ok := false, messages := p.messages ++ [errMsg e] }
    ∧ (Main.compare_table dbo dbn t).ok = false
    ∧ (Main.compare_table dbo dbn t).messages = p.messages ++ [errMsg e]
    ∧ errMsg e ∈ (Main.compare_table dbo dbn t).messages
    ∧ p.only_in_old = [] ∧ p.only_in_new = [] ∧ p.columns_used = [] := by
  intro dbo dbn t p e hb
  have hc := Main.compare_table_error_case dbo dbn t p e hb
  have hf := Main.compare_body_error_inv dbo dbn t p e hb
  refine ⟨hc, by rw [hc], by rw [hc], ?_, hf.1, hf.2.1, hf.2.2⟩
  rw [hc]
  simp

/-- Witness for C3 at a connection whose catalog query raises. -/
theorem c3_witness :
    Main.compare_table failDB okDB "T" =
      { Main.initRes "T" with
        ok := false
        messages := (Main.initRes "T").messages ++ [errMsg "boom"] }
    ∧ (Main.compare_table failDB okDB "T").ok = false
    ∧ (Main.compare_table failDB okDB "T").messages =
        (Main.initRes "T").messages ++ [errMsg "boom"]
    ∧ errMsg "boom" ∈ (Main.compare_table failDB okDB "T").messages
    ∧ (Main.initRes "T").only_in_old = []
    ∧ (Main.initRes "T").only_in_new = []
    ∧ (Main.initRes "T").columns_used = [] :=
  c3_exception_caught_per_table failDB okDB "T" (Main.initRes "T") "boom" rfl

/-- C9: whenever `compare_table` returns with `ok = true`, the row-diff
fields `only_in_old`, `only_in_new` and `columns_used` are all empty,
whatever the two connections answered (schema-equal or not): sampling only
runs after `ok` has become false. -/
theorem c9_ok_implies_empty_diffs : ∀ (dbo dbn : DB) (t : String),
    (Main.compare_table dbo dbn t).ok = true →
    (Main.compare_table dbo dbn t).only_in_old = []
    ∧ (Main.compare_table dbo dbn t).only_in_new = []
    ∧ (Main.compare_table dbo dbn t).columns_used = [] := by
  intro dbo dbn t hok
  rcases hb : Main.compare_body dbo dbn t with pe | r
  · rcases pe with ⟨p, e⟩
    rw [Main.compare_table_error_case dbo dbn t p e hb] at hok
    simp at hok
  · have hr : Main.compare_table dbo dbn t = r := by
      simp [Main.compare_table, hb]
    rw [hr] at hok
    rw [hr]
    exact Main.compare_body_ok_inv dbo dbn t r hb hok

/-- Witness for C9 at a concrete pair of identical connections. -/
theorem c9_witness :
    (Main.compare_table okDB okDB "T").only_in_old = []
    ∧ (Main.compare_table okDB okDB "T").only_in_new = []
    ∧ (Main.compare_table okDB okDB "T").columns_used = [] :=
  c9_ok_implies_empty_diffs okDB okDB "T" rfl

/-- C5: row-diff sampling respects the cap on both sides, for every cap,
in the `main.py` engine (the two dictionary lists are truncated to the
cap) and in the `test3.py` variant (whose two lists are always empty). -/
theorem c5_sampling_respects_cap :
    (∀ (dbo dbn : DB) (t : String) (cap : Nat)
      (d : List (List (String × String)) × List (List (String × String)) ×
        List String),
      Main.sample_row_diffs dbo dbn t cap = .ok d →
      d.1.length ≤ cap ∧ d.2.1.length ≤ cap)
    ∧ (∀ (dbo dbn : Database) (t : String) (cap : Nat),
      (Test3.q_sample_diff dbo dbn t cap).1.length ≤ cap
      ∧ (Test3.q_sample_diff dbo dbn t cap).2.1.length ≤ cap) := by
  constructor
  · intro dbo dbn t cap d hd
    simp only [Main.sample_row_diffs] at hd
    repeat' split at hd
    all_goals try exact Except.noConfusion hd
    all_goals simp only [Except.ok.injEq] at hd
    all_goals subst hd
    · simp
    · constructor <;>
        (simp only [Main.to_dicts, List.length_take]; exact Nat.min_le_left _ _)
  · intro dbo dbn t cap
    rw [Test3.q_sample_diff_eq]
    simp

/-- Witness for C5 at a concrete pair of connections with cap 0. -/
theorem c5_witness :
    (([] : List (List (String × String))).length ≤ 0
    ∧ ([] : List (List (String × String))).length ≤ 0) :=
  c5_sampling_respects_cap.1 okDB okDB "T" 0 ([], [], ["A"]) rfl

/-- C6: when the two catalogs share no column name, the sampling step
returns three empty lists and no error — in the `main.py` engine it
answers `Except.ok` before issuing any select, whatever the select queries
would do, and the `test3.py` variant likewise returns empty lists. -/
theorem c6_no_common_columns_skips_sampling :
    (∀ (dbo dbn : DB) (t : String) (mo mn : List (String × Nat)) (limit : Nat),
      dbo.q_columns t = .ok mo → dbn.q_columns t = .ok mn →
      (∀ c ∈ mo.map Prod.fst, c ∉ mn.map Prod.fst) →
      Main.sample_row_diffs dbo dbn t limit = .ok ([], [], []))
    ∧ (∀ (dbo dbn : Database) (t : String) (limit : Nat),
      (∀ c ∈ (Test3.q_columns dbo t).map Prod.fst,
        c ∉ (Test3.q_columns dbn t).map Prod.fst) →
      Test3.q_sample_diff dbo dbn t limit = ([], [], [])) := by
  constructor
  · intro dbo dbn t mo mn limit h1 h2 hdisj
    have hfil : (mo.map Prod.fst).filter
        (fun c => decide (c ∈ mn.map Prod.fst)) = [] := by
      rw [List.filter_eq_nil_iff]
      intro a ha
      simpa using hdisj a ha
    have hcc : Main.common_columns dbo dbn t = .ok [] := by
      simp [Main.common_columns, h1, h2, hfil]
    simp [Main.sample_row_diffs, hcc]
  · intro dbo dbn t limit hdisj
    have hcc : Test3.common_columns dbo dbn t = [] := by
      rw [Test3.common_columns, List.filter_eq_nil_iff]
      intro a ha
      simpa using hdisj a ha
    simp [Test3.q_sample_diff, hcc]

/-- Witness for C6 at two connections with disjoint single-column catalogs. -/
theorem c6_witness : Main.sample_row_diffs okDB okDB2 "T" 5 = .ok ([], [], []) :=
  c6_no_common_columns_skips_sampling.1 okDB okDB2 "T" [("A", 1)] [("B", 1)] 5
    rfl rfl (by decide)

/-- C7: comparing a table twice against unchanged databases yields
identical results, sample-list order included: the result is a function of
the answers the two connections give to the engine's queries alone, so two
runs over connections answering identically coincide. -/
theorem c7_compare_is_deterministic : ∀ (dbo dbn dbo2 dbn2 : DB) (t : String),
    (∀ s, dbo.q_columns s = dbo2.q_columns s) →
    (∀ s, dbo.q_rowcount s = dbo2.q_rowcount s) →
    (∀ s, dbo.q_checksum s = dbo2.q_checksum s) →
    (∀ q, dbo.q_select q = dbo2.q_select q) →
    (∀ s, dbn.q_columns s = dbn2.q_columns s) →
    (∀ s, dbn.q_rowcount s = dbn2.q_rowcount s) →
    (∀ s, dbn.q_checksum s = dbn2.q_checksum s) →
    (∀ q, dbn.q_select q = dbn2.q_select q) →
    Main.compare_table dbo dbn t = Main.compare_table dbo2 dbn2 t := by
  intro dbo dbn dbo2 dbn2 t a1 a2 a3 a4 b1 b2 b3 b4
  have ho : dbo = dbo2 := by
    cases dbo
    cases dbo2
    rw [DB.mk.injEq]
    exact ⟨funext a1, funext a2, funext a3, funext a4⟩
  have hn : dbn = dbn2 := by
    cases dbn
    cases dbn2
    rw [DB.mk.injEq]
    exact ⟨funext b1, funext b2, funext b3, funext b4⟩
  rw [ho, hn]

/-- Witness for C7 at a concrete pair of connections, queried twice. -/
theorem c7_witness :
    Main.compare_table okDB okDB2 "T" = Main.compare_table okDB okDB2 "T" := by
  refine c7_compare_is_deterministic okDB okDB2 okDB okDB2 "T"
    ?_ ?_ ?_ ?_ ?_ ?_ ?_ ?_ <;> exact fun _ => rfl

/-- C8: each diff statement `test3.py`'s `q_sample_diff` generates
subtracts a table's own rows from a capped scan of that same table over
one connection, so on every database both fetched samples are empty and
`q_sample_diff` returns empty `only_in_old` and `only_in_new` lists
(whatever the common columns are, empty or not). -/
theorem c8_t3_diff_always_empty : ∀ (dbo dbn : Database) (t : String)
    (cols : List String) (limit : Nat),
    Test3.run_diff_sql dbo t cols limit = []
    ∧ Test3.run_diff_sql dbn t cols limit = []
    ∧ Test3.q_sample_diff dbo dbn t limit =
        ([], [], Test3.common_columns dbo dbn t) := by
  intro dbo dbn t cols limit
  exact ⟨Test3.run_diff_sql_nil dbo t cols limit,
    Test3.run_diff_sql_nil dbn t cols limit,
    Test3.q_sample_diff_eq dbo dbn t limit⟩

/-- C10: when the caller hands `fetch_table_sample` a non-empty projection
none of whose names exist in the (non-empty) catalog, it silently falls
back to selecting all of the table's columns: the call behaves exactly as
a call with no projection, issuing the all-columns select, rather than
raising or returning an empty frame. -/
theorem c10_unknown_projection_falls_back : ∀ (db : DB) (t : String)
    (cs : List String) (wh ob : Option String) (top : Nat)
    (meta : List (String × Nat)),
    db.q_columns t = .ok meta →
    meta.map Prod.fst ≠ [] →
    cs ≠ [] →
    (∀ c ∈ cs, c ∉ meta.map Prod.fst) →
    Main.fetch_table_sample db t (some cs) wh ob top =
      Except.map (fun rows => (meta.map Prod.fst, rows))
        (db.q_select
          ⟨t, meta.map Prod.fst, Main.stripOpt wh, Main.stripOpt ob, top⟩)
    ∧ Main.fetch_table_sample db t (some cs) wh ob top =
        Main.fetch_table_sample db t none wh ob top := by
  intro db t cs wh ob top meta h1 hne hcs hdisj
  have hfil : cs.filter (fun c => decide (c ∈ meta.map Prod.fst)) = [] := by
    rw [List.filter_eq_nil_iff]
    intro a ha
    simpa using hdisj a ha
  have hfil2 : (meta.map Prod.fst).filter
      (fun c => decide (c ∈ meta.map Prod.fst)) = meta.map Prod.fst := by
    rw [List.filter_eq_self]
    intro a ha
    simpa using ha
  constructor
  · simp only [Main.fetch_table_sample, h1, if_neg hne, if_neg hcs, hfil,
      if_pos rfl]
    cases hq : db.q_select ⟨t, meta.map Prod.fst, Main.stripOpt wh,
        Main.stripOpt ob, top⟩ <;> simp [Except.map, hq]
  · simp only [Main.fetch_table_sample, h1, if_neg hne, if_neg hcs, hfil,
      hfil2, if_pos rfl, if_neg hne]
    simp

/-- Witness for C10: a projection naming only the unknown column Z against
a catalog holding only column A selects column A. -/
theorem c10_witness :
    (Main.fetch_table_sample okDB "T" (some ["Z"]) none none 3 =
      Except.map (fun rows => ((["A"] : List String), rows))
        (okDB.q_select ⟨"T", ["A"], none, none, 3⟩))
    ∧ Main.fetch_table_sample okDB "T" (some ["Z"]) none none 3 =
        Main.fetch_table_sample okDB "T" none none none 3 :=
  c10_unknown_projection_falls_back okDB "T" ["Z"] none none 3 [("A", 1)]
    rfl (by decide) (by decide) (by decide)

theorem take_two_cons {α : Type} (k : Nat) (a b : α) :
    List.take (k + 2) [a, b] = [a, b] := by
  simp [List.take_succ_cons]

theorem take_two_single {α : Type} (k : Nat) (a : α) :
    List.take (k + 2) [a] = [a] := by
  simp [List.take_succ_cons]

theorem scenario_fetch_old (h : Row → Int) (k : Nat) :
    Main.fetch_table_sample (scenarioOld h).toDB "T" (some ["id", "value"])
      none none (k + 2) = .ok (["id", "value"], [rowOld1, rowOld2]) := by
  simp [Main.fetch_table_sample, Database.toDB, scenarioOld, catalogT,
    Main.stripOpt, projectRow, colIdx, rowOld1, rowOld2, take_two_cons]

theorem scenario_fetch_new (h : Row → Int) (k : Nat) :
    Main.fetch_table_sample (scenarioNew h).toDB "T" (some ["id", "value"])
      none none (k + 2) = .ok (["id", "value"], [rowOld1, rowNew2]) := by
  simp [Main.fetch_table_sample, Database.toDB, scenarioNew, catalogT,
    Main.stripOpt, projectRow, colIdx, rowOld1, rowNew2, take_two_cons]

set_option maxHeartbeats 1000000 in
theorem scenario_sample_eval (h : Row → Int) (k : Nat) :
    Main.sample_row_diffs (scenarioOld h).toDB (scenarioNew h).toDB "T" (k + 2) =
      .ok ([[("id", "2"), ("value", "y")]], [[("id", "2"), ("value", "z")]],
        ["id", "value"]) := by
  have hcc : Main.common_columns (scenarioOld h).toDB (scenarioNew h).toDB "T" =
      .ok ["id", "value"] := rfl
  have p1 : toString (1 : Int) = "1" := rfl
  have p2 : toString (2 : Int) = "2" := rfl
  simp only [Main.sample_row_diffs, hcc, scenario_fetch_old h k,
    scenario_fetch_new h k]
  simp [projectRow, colIdx, pyStr, dedupFirst, dedupAux, Main.to_dicts,
    rowOld1, rowOld2, rowNew2, p1, p2, take_two_single]

/-- C4 counterexample: on the spec's scenario (old rows {(1,x),(2,y)}, new
rows {(1,x),(2,z)}), the `test3.py` row-diff computation cited by the claim
returns an empty `only_in_old` rather than the expected single row
{id: 2, value: "y"}, because its generated diff queries subtract each
table from itself. -/
theorem c4_counterexample :
    (Test3.q_sample_diff (scenarioOld demoHash) (scenarioNew demoHash) "T" 100).1
      = []
    ∧ ([] : List (List (String × Val))) ≠
        [[("id", Val.intV 2), ("value", Val.strV "y")]] := by
  constructor
  · rw [Test3.q_sample_diff_eq]
  · decide

/-- C4 (amended): on the spec scenario (old rows {(1,"x"),(2,"y")}, new
rows {(1,"x"),(2,"z")}, common columns (id, value)), provided the engine's
per-row checksum separates (2,"y") from (2,"z") and the sample cap is at
least 2, the `main.py` comparison yields `ok = false` (checksum mismatch)
and its row-diff computation returns only_in_old = [{id: "2", value: "y"}]
and only_in_new = [{id: "2", value: "z"}]; the `test3.py` variant's
row-diff computation instead returns two empty lists on the same
scenario. -/
theorem c4_scenario_mismatch_and_diff : ∀ (h : Row → Int) (cap : Nat),
    h rowOld2 ≠ h rowNew2 → 2 ≤ cap →
    (Main.compare_table (scenarioOld h).toDB (scenarioNew h).toDB "T").ok = false
    ∧ (Main.compare_table (scenarioOld h).toDB (scenarioNew h).toDB "T").only_in_old
        = [[("id", "2"), ("value", "y")]]
    ∧ (Main.compare_table (scenarioOld h).toDB (scenarioNew h).toDB "T").only_in_new
        = [[("id", "2"), ("value", "z")]]
    ∧ Main.sample_row_diffs (scenarioOld h).toDB (scenarioNew h).toDB "T" cap
        = .ok ([[("id", "2"), ("value", "y")]], [[("id", "2"), ("value", "z")]],
            ["id", "value"])
    ∧ Test3.q_sample_diff (scenarioOld h) (scenarioNew h) "T" cap
        = ([], [], ["id", "value"]) := by
  intro h cap hne hcap
  obtain ⟨k, rfl⟩ : ∃ k, cap = k + 2 := ⟨cap - 2, by omega⟩
  have hsum : ([rowOld1, rowOld2].map h).sum ≠ ([rowOld1, rowNew2].map h).sum := by
    intro hcs
    simp only [List.map_cons, List.map_nil, List.sum_cons, List.sum_nil] at hcs
    exact hne (by omega)
  have hbad : ¬((2 : Int) = 2 ∧
      ([rowOld1, rowOld2].map h).sum = ([rowOld1, rowNew2].map h).sum) := by
    rintro ⟨-, hcs⟩
    exact hsum hcs
  have h100 := scenario_sample_eval h 98
  have hcmp := Main.compare_table_diff_case (scenarioOld h).toDB
    (scenarioNew h).toDB "T" [("id", 1), ("value", 2)] [("id", 1), ("value", 2)]
    2 2 (([rowOld1, rowOld2].map h).sum) (([rowOld1, rowNew2].map h).sum)
    ([[("id", "2"), ("value", "y")]], [[("id", "2"), ("value", "z")]],
      ["id", "value"])
    rfl rfl rfl rfl rfl rfl hbad h100
  refine ⟨?_, ?_, ?_, scenario_sample_eval h k, ?_⟩
  · rw [hcmp]
    simp [Main.probeResult_ok, hne]
  · rw [hcmp]
  · rw [hcmp]
  · rw [Test3.q_sample_diff_eq]
    rfl

theorem c4_witness :
    (Main.compare_table (scenarioOld demoHash).toDB (scenarioNew demoHash).toDB
        "T").ok = false
    ∧ (Main.compare_table (scenarioOld demoHash).toDB (scenarioNew demoHash).toDB
        "T").only_in_old = [[("id", "2"), ("value", "y")]]
    ∧ (Main.compare_table (scenarioOld demoHash).toDB (scenarioNew demoHash).toDB
        "T").only_in_new = [[("id", "2"), ("value", "z")]]
    ∧ Main.sample_row_diffs (scenarioOld demoHash).toDB (scenarioNew demoHash).toDB
        "T" 2 = .ok ([[("id", "2"), ("value", "y")]],
          [[("id", "2"), ("value", "z")]], ["id", "value"])
    ∧ Test3.q_sample_diff (scenarioOld demoHash) (scenarioNew demoHash) "T" 2
        = ([], [], ["id", "value"]) :=
  c4_scenario_mismatch_and_diff demoHash 2 (by decide) (by decide)
